import Mathlib

/-!
Verification of the client-side content discovery layer of a portfolio/blog
site: the tag-based filter engine (`src/scripts/filter.ts`) and the Pagefind
search client (`src/utils/search.ts`).

The embedding works over `List Char` for all string processing, so every
definition is executable by kernel reduction.  JavaScript strings are UTF-16;
all tag ids, queries and messages handled by the program are ASCII, where
Lean's code-point view of `String` agrees with the UTF-16 code-unit view,
including the relative order used by `Array.prototype.sort()`.
-/

/- ===================== generic string helpers ===================== -/

/-- Whether a character is whitespace; models the characters trimmed by
`String.prototype.trim` and matched by the regex class `\s` (for the ASCII
range handled by the site). -/
def jsWhitespace (c : Char) : Bool := c.isWhitespace

/-- Drop whitespace from both ends of a character list; models
`String.prototype.trim`. -/
def trimChars (l : List Char) : List Char :=
  ((l.dropWhile jsWhitespace).reverse.dropWhile jsWhitespace).reverse

/-- `String.prototype.trim`. -/
def jsTrim (s : String) : String := ⟨trimChars s.data⟩

/-- Lower-case every character; models `String.prototype.toLowerCase` on the
ASCII range. -/
def jsToLower (s : String) : String := ⟨s.data.map Char.toLower⟩

/-- Split a character list at every character satisfying `p`, keeping empty
segments; models `String.prototype.split` with a single-character separator
(and, composed with dropping empty segments, `split(/\s+/)` followed by
`filter(Boolean)`). -/
def splitCharAux (p : Char → Bool) : List Char → List Char → List (List Char)
  | [], acc => [acc.reverse]
  | c :: rest, acc =>
    if p c then acc.reverse :: splitCharAux p rest []
    else splitCharAux p rest (c :: acc)

/-- Split a character list at every character satisfying `p`. -/
def splitChar (p : Char → Bool) (l : List Char) : List (List Char) :=
  splitCharAux p l []

/-- Join strings with a separator; models `Array.prototype.join`. -/
def joinWith (sep : String) : List String → String
  | [] => ""
  | [x] => x
  | x :: y :: rest => x ++ sep ++ joinWith sep (y :: rest)

/-- Lexicographic comparison of character lists by code point; models the
UTF-16 code-unit comparison performed by the default `Array.prototype.sort()`
comparator (identical on the ASCII tag ids the program sorts). -/
def lexLe : List Char → List Char → Bool
  | [], _ => true
  | _ :: _, [] => false
  | a :: as, b :: bs => if a = b then lexLe as bs else decide (a < b)

/-- The proposition form of `lexLe` on strings, used as the sort order. -/
def strLe (a b : String) : Prop := lexLe a.data b.data = true

/-- `strLe` is decidable (it is a boolean comparison). -/
instance strLe.decidableRel : DecidableRel strLe := fun _ _ => instDecidableEqBool _ _

/- ===================== filter engine: data model ===================== -/

/-- A candidate content item as the filter engine sees it: the value of its
section-specific comma-joined tag attribute (`data-{type}-tags`), or `none`
when the attribute is absent (`getAttribute` returned `null`). -/
structure Item where
  tagAttr : Option String
deriving Repr, DecidableEq

/-- Parse a comma-joined tag attribute: split on commas, trim each piece,
drop empties.  Embeds `itemTagsStr.split(",").map((t) => t.trim()).filter(Boolean)`
from `FilterInstance.filterItems`. -/
def parseTags (s : String) : List String :=
  (((splitChar (fun c => c = ',') s.data).map (fun p => String.mk p)).map jsTrim).filter
    (fun t => t ≠ "")

/-- The tag set of an item: `[]` when the attribute is absent, the parsed
list otherwise. -/
def itemTags (it : Item) : List String :=
  match it.tagAttr with
  | some s => parseTags s
  | none => []

/-- The mutable state of one filter session: the `activeFilters` JS `Set`,
modelled as its insertion-ordered, duplicate-free element list. -/
structure FilterState where
  activeFilters : List String
deriving Repr, DecidableEq

/-- The state of a freshly created session before any URL bootstrap. -/
def emptyFilter : FilterState := ⟨[]⟩

/-- Embeds `FilterInstance.toggleFilter`: a falsy (empty) tag id is ignored;
otherwise membership of the tag in `activeFilters` is inverted
(`Set.delete` / `Set.add`). -/
def toggleFilter (st : FilterState) (tagId : String) : FilterState :=
  if tagId = "" then st
  else if tagId ∈ st.activeFilters then ⟨st.activeFilters.erase tagId⟩
  else ⟨st.activeFilters ++ [tagId]⟩

/-- Embeds `FilterInstance.clearAllFilters`: `activeFilters.clear()`. -/
def clearAllFilters (_st : FilterState) : FilterState := ⟨[]⟩

/-- The two mutation events a live session processes. -/
inductive FilterOp where
  | toggle (tagId : String)
  | clearAll
deriving Repr, DecidableEq

/-- Apply one mutation event. -/
def applyOp (st : FilterState) : FilterOp → FilterState
  | .toggle tagId => toggleFilter st tagId
  | .clearAll => clearAllFilters st

/-- Run a sequence of mutation events. -/
def runOps (ops : List FilterOp) (st : FilterState) : FilterState :=
  ops.foldl applyOp st

/-- Embeds the visibility test of `FilterInstance.filterItems`:
`!hasFilters || itemTags.some((tag) => this.activeFilters.has(tag))`
where `hasFilters` is `activeFilters.size > 0`. -/
def isVisible (st : FilterState) (it : Item) : Bool :=
  !(decide (0 < st.activeFilters.length)) ||
    (itemTags it).any (fun tag => st.activeFilters.contains tag)

/-- JS `Array.from(set).sort()` on the active-filter list, with the default
code-unit comparator. -/
def sortTags (l : List String) : List String :=
  List.insertionSort strLe l

/-- Embeds the `tags` query-parameter value written by
`FilterInstance.updateURL`: when `activeFilters.size > 0` the parameter is set
to `Array.from(this.activeFilters).sort().join(",")`, otherwise the parameter
is deleted (`none`). -/
def serializeTags (st : FilterState) : Option String :=
  if 0 < st.activeFilters.length then some (joinWith ("," : String) (sortTags st.activeFilters))
  else none

/- ===================== results-count messages ===================== -/

/-- The content-type label of the function-based filter script:
`type === "writing" ? "posts" : "projects"`. -/
def typeLabelOf (type : String) : String :=
  if type = "writing" then "posts" else "projects"

/-- Embeds `updateResultsCount` of the function-based filter script: the text
written to the results-count element, as a function of the section type, the
number of active filters, the visible count and the total count. -/
def updateResultsCount (type : String) (activeCount count total : Nat) : String :=
  if 0 < activeCount then
    "Showing " ++ toString count ++ " of " ++ toString total ++ " " ++ typeLabelOf type
  else
    toString total ++ " " ++ typeLabelOf type ++ " total"

/-- Embeds `FilterInstance.updateResultsCount` of the class-based filter
script, whose label is the raw section type (`this.config.type`). -/
def resultsCountMessage (type : String) (activeCount count total : Nat) : String :=
  if 0 < activeCount then
    "Showing " ++ toString count ++ " of " ++ toString total ++ " " ++ type
  else
    toString total ++ " " ++ type ++ " total"

/-- The results-count text produced by one `FilterInstance.filterItems` pass:
the visible count is the number of items passing the visibility test, the
total is the item-collection length. -/
def filterItemsMessage (type : String) (st : FilterState) (items : List Item) : String :=
  resultsCountMessage type st.activeFilters.length
    (items.countP (fun it => isVisible st it)) items.length

/- ===================== DOM model and initialization ===================== -/

/-- The document as the filter initialization sees it: the set of element ids
present, and how many elements match the section's item selector. -/
structure DOM where
  ids : List String
  itemCount : Nat
deriving Repr, DecidableEq

/-- The per-section id/selector configuration built by the `FilterInstance`
constructor. -/
structure FilterConfig where
  type : String
  filterTagsId : String
  clearBtnId : String
  resultsCountId : String
  tagAttribute : String
deriving Repr, DecidableEq

/-- Embeds the `FilterConfig` construction from the section type. -/
def mkFilterConfig (type : String) : FilterConfig :=
  { type := type
    filterTagsId := type ++ "-filter-tags"
    clearBtnId := type ++ "-clear-filters"
    resultsCountId := type ++ "-results-count"
    tagAttribute := "data-" ++ type ++ "-tags" }

/-- Embeds `getElementById` of `use-dom-utils.ts`: the element (its id) or
`none` when absent; with `required` set, a missing element throws the
configured error message. -/
def getElementById (dom : DOM) (id : String) (required : Bool) (errorMessage : String) :
    Except String (Option String) :=
  if id ∈ dom.ids then Except.ok (some id)
  else if required then Except.error errorMessage
  else Except.ok none

/-- The three anchor elements plus the item collection captured by
`FilterInstance.getElements`. -/
structure FilterElements where
  filterTags : String
  clearBtn : String
  resultsCount : String
  itemCount : Nat
deriving Repr, DecidableEq

/-- Embeds `FilterInstance.getElements`: three required `getElementById`
lookups (each throwing when its element is missing), an unconditional
`querySelectorAll` for the items, and a final null-check throw. -/
def getElements (dom : DOM) (cfg : FilterConfig) : Except String FilterElements :=
  match getElementById dom cfg.filterTagsId true
      ("Filter tags element not found: " ++ cfg.filterTagsId) with
  | Except.error e => Except.error e
  | Except.ok ft =>
    match getElementById dom cfg.clearBtnId true
        ("Clear button not found: " ++ cfg.clearBtnId) with
    | Except.error e => Except.error e
    | Except.ok cb =>
      match getElementById dom cfg.resultsCountId true
          ("Results count element not found: " ++ cfg.resultsCountId) with
      | Except.error e => Except.error e
      | Except.ok rc =>
        match ft, cb, rc with
        | some a, some b, some c => Except.ok ⟨a, b, c, dom.itemCount⟩
        | _, _, _ =>
          Except.error ("[Filter] Required elements not found for " ++ cfg.type)

/-- Whether an existing instance for this section is still valid:
`document.getElementById(this.config.filterTagsId) !== null`
(`FilterInstance.isValid`). -/
def instanceIsValid (dom : DOM) (type : String) : Bool :=
  (mkFilterConfig type).filterTagsId ∈ dom.ids

/-- Embeds the body of the `try` block of `initializeFilters`: construct a
`FilterInstance` (whose constructor runs `getElements` and can throw) and
register it under its instance key. -/
def tryCreateInstance (dom : DOM) (type : String) (instances : List String) :
    Except String (List String) :=
  match getElements dom (mkFilterConfig type) with
  | Except.ok _ => Except.ok (instances ++ ["filter-" ++ type])
  | Except.error _e => Except.ok instances

/-- Embeds the exported `initializeFilters` of the class-based filter script,
acting on the registry of instance keys.  A stale registered instance is
destroyed and recreated; construction errors are caught (`console.error`) and
the function returns normally, so the result is always `Except.ok`. -/
def initFilters (dom : DOM) (type : String) (instances : List String) :
    Except String (List String) :=
  let instanceKey := "filter-" ++ type
  if instanceKey ∈ instances then
    if instanceIsValid dom type then Except.ok instances
    else tryCreateInstance dom type (instances.erase instanceKey)
  else tryCreateInstance dom type instances

/-- The three anchors required by `getElements` are all present in the
document. -/
def anchorsPresent (dom : DOM) (type : String) : Prop :=
  (mkFilterConfig type).filterTagsId ∈ dom.ids ∧
    (mkFilterConfig type).clearBtnId ∈ dom.ids ∧
    (mkFilterConfig type).resultsCountId ∈ dom.ids

instance anchorsPresent.decidable (dom : DOM) (type : String) :
    Decidable (anchorsPresent dom type) := by
  unfold anchorsPresent
  infer_instance

/- ===================== search client: index loading ===================== -/

/-- The materializable payload of one search result (`result.data()`resolves
to the full `SearchResult`; its contents are opaque to the control logic, so
it is modelled by its id). -/
abbrev Payload := String

/-- A loaded Pagefind module: `search` maps a query to either a thrown error
(`Except.error`), an invalid response shape (`Except.ok none`), or a list of
result handles, each recorded together with the outcome of its later
`data()` materialization.  `debouncedSearch` is the optional debounce-aware
variant. -/
structure PagefindInstance where
  search : String → Except String (Option (List (Except String Payload)))
  debouncedSearch : Option (String → Nat → Except String (Option (List (Except String Payload))))

/-- An observable event of the index-loading loop: a load attempt (with its
1-based attempt number) or an inter-attempt `setTimeout` sleep. -/
inductive LoadEvent where
  | attempt (n : Nat)
  | sleep (ms : Nat)
deriving Repr, DecidableEq

/-- What `loadPagefind` leaves behind: the returned (or thrown) value, the
module-level `pagefindInstance` cache afterwards, and the event trace. -/
structure LoadOutcome where
  result : Except String PagefindInstance
  cache : Option PagefindInstance
  events : List LoadEvent

/-- Embeds the `for (let attempt = 1; attempt <= retries; attempt++)` loop of
`loadPagefind`.  `remaining` is `retries - attempt + 1`, the number of
attempts still allowed; the loop sleeps for `delay` only when
`attempt < retries`, i.e. when further attempts remain.  The `remaining = 0`
entry case is reached only for `retries = 0`, where the loop body never runs
and the trailing `throw` fires with a null `lastError`. -/
def loadLoop (loader : Nat → Except String PagefindInstance) (retries delay : Nat) :
    Nat → Nat → Except String PagefindInstance × List LoadEvent
  | _attempt, 0 =>
    (Except.error ("[Search] Failed to load Pagefind after " ++ toString retries ++
      " attempts: undefined"), [])
  | attempt, remaining + 1 =>
    match loader attempt with
    | Except.ok inst => (Except.ok inst, [LoadEvent.attempt attempt])
    | Except.error e =>
      if remaining = 0 then
        (Except.error ("[Search] Failed to load Pagefind after " ++ toString retries ++
          " attempts: " ++ e), [LoadEvent.attempt attempt])
      else
        let rest := loadLoop loader retries delay (attempt + 1) remaining
        (rest.1, LoadEvent.attempt attempt :: LoadEvent.sleep delay :: rest.2)

/-- Embeds `loadPagefind(retries, delay)` acting on the module-level
`pagefindInstance` cache: a cached instance is returned with no attempts; on
a successful attempt the instance is cached; when every attempt fails the
error is thrown and the cache stays unset. -/
def loadPagefind (loader : Nat → Except String PagefindInstance) (retries delay : Nat)
    (cache : Option PagefindInstance) : LoadOutcome :=
  match cache with
  | some inst => ⟨Except.ok inst, some inst, []⟩
  | none =>
    let r := loadLoop loader retries delay 1 retries
    match r.1 with
    | Except.ok inst => ⟨Except.ok inst, some inst, r.2⟩
    | Except.error e => ⟨Except.error e, none, r.2⟩

/-- Count the load attempts in a trace. -/
def countAttempts (events : List LoadEvent) : Nat :=
  events.countP (fun ev => match ev with | LoadEvent.attempt _ => true | _ => false)

/-- Count the inter-attempt sleeps in a trace. -/
def countSleeps (events : List LoadEvent) : Nat :=
  events.countP (fun ev => match ev with | LoadEvent.sleep _ => true | _ => false)

/- ===================== search client: statistics ===================== -/

/-- The process-wide `SearchStats` counters. -/
structure SearchStatsState where
  searches : Nat
  totalResults : Nat
  failedSearches : Nat
deriving Repr, DecidableEq

/-- Embeds `SearchStats.recordSearch`. -/
def recordSearch (st : SearchStatsState) (resultCount : Nat) : SearchStatsState :=
  { st with searches := st.searches + 1, totalResults := st.totalResults + resultCount }

/-- Embeds `SearchStats.recordFailure`. -/
def recordFailure (st : SearchStatsState) : SearchStatsState :=
  { st with failedSearches := st.failedSearches + 1 }

/-- The snapshot returned by `SearchStats.getStats`, with the two ratios as
exact rationals (JS computes them in floating point; the guard against a zero
denominator is what is under scrutiny, not rounding). -/
structure StatsView where
  searches : Nat
  totalResults : Nat
  avgResults : ℚ
  failedSearches : Nat
  successRate : ℚ

/-- Embeds `SearchStats.getStats`: both ratios are guarded by
`this.searches > 0` ternaries and fall back to `0`. -/
def getStats (st : SearchStatsState) : StatsView :=
  { searches := st.searches
    totalResults := st.totalResults
    avgResults := if 0 < st.searches then (st.totalResults : ℚ) / (st.searches : ℚ) else 0
    failedSearches := st.failedSearches
    successRate :=
      if 0 < st.searches then
        (((st.searches : ℚ) - (st.failedSearches : ℚ)) / (st.searches : ℚ)) * 100
      else 0 }

/- ===================== search client: performSearch ===================== -/

/-- A raw value passed as the `query` argument: a string, or any non-string
value (`validateQuery` inspects `typeof query`). -/
inductive JSValue where
  | str (s : String)
  | other
deriving Repr, DecidableEq

/-- Embeds `validateQuery`: non-strings map to `null`; strings are trimmed
and must be non-empty. -/
def validateQuery : JSValue → Option String
  | JSValue.str s =>
    let trimmed := jsTrim s
    if 0 < trimmed.data.length then some trimmed else none
  | JSValue.other => none

/-- The options record of `performSearch`; absent fields are `none`
(`undefined`). -/
structure SearchOptions where
  debounce : Option Nat
  maxResults : Option Nat
  retries : Option Nat
  retryDelay : Option Nat

/-- JS truthiness of an optional number: `undefined` and `0` are falsy. -/
def truthyNum : Option Nat → Bool
  | none => false
  | some 0 => false
  | some (_ + 1) => true

/-- The module-level mutable state `performSearch` touches: the cached index
handle and the statistics counters. -/
structure SearchGlobal where
  pagefindInstance : Option PagefindInstance
  stats : SearchStatsState

/-- Everything observable about one `performSearch` invocation: the returned
(or thrown) value, the cache and counters afterwards, the load-event trace,
the number of result handles whose `data()` was invoked, and the number of
calls to the index's query primitive. -/
structure SearchOutcome where
  result : Except String (List Payload)
  cache : Option PagefindInstance
  stats : SearchStatsState
  loadEvents : List LoadEvent
  materialized : Nat
  queries : Nat

/-- The default parameter values of `loadPagefind`:
`retries = DEFAULT_RETRY_ATTEMPTS = 3`, `delay = DEFAULT_RETRY_DELAY = 1000`,
applied when the corresponding argument is `undefined`. -/
def retriesOrDefault (o : Option Nat) : Nat := o.getD 3

/-- Default for the `loadPagefind` delay parameter. -/
def retryDelayOrDefault (o : Option Nat) : Nat := o.getD 1000

/-- Embeds `performSearch(query, options)`.  Invalid queries short-circuit to
`[]`.  Otherwise the index is loaded (with retry), the query primitive is
chosen (`options.debounce && pagefind.debouncedSearch` prefers the debounced
variant), the response shape is validated (`[]` on mismatch), the handle list
is truncated to `maxResults` when that option is truthy, every remaining
handle is materialized with `Promise.allSettled`, and the fulfilled payloads
are returned in order.  A thrown load or query error is re-thrown by the
`catch` block.  The statistics counters are never touched. -/
def performSearch (query : JSValue) (options : SearchOptions)
    (loader : Nat → Except String PagefindInstance) (g : SearchGlobal) : SearchOutcome :=
  match validateQuery query with
  | none => ⟨Except.ok [], g.pagefindInstance, g.stats, [], 0, 0⟩
  | some validQuery =>
    let lo := loadPagefind loader (retriesOrDefault options.retries)
      (retryDelayOrDefault options.retryDelay) g.pagefindInstance
    match lo.result with
    | Except.error e => ⟨Except.error e, lo.cache, g.stats, lo.events, 0, 0⟩
    | Except.ok pagefind =>
      let resp :=
        match truthyNum options.debounce, pagefind.debouncedSearch with
        | true, some ds => ds validQuery (options.debounce.getD 0)
        | _, _ => pagefind.search validQuery
      match resp with
      | Except.error e => ⟨Except.error e, lo.cache, g.stats, lo.events, 0, 1⟩
      | Except.ok none => ⟨Except.ok [], lo.cache, g.stats, lo.events, 0, 1⟩
      | Except.ok (some handles) =>
        let results :=
          if truthyNum options.maxResults then handles.take (options.maxResults.getD 0)
          else handles
        let validResults := results.filterMap (fun r =>
          match r with
          | Except.ok v => some v
          | Except.error _ => none)
        ⟨Except.ok validResults, lo.cache, g.stats, lo.events, results.length, 1⟩

/-- A Pagefind instance whose query primitive succeeds and returns the given
handle list (each handle paired with its materialization outcome); used to
instantiate the `performSearch` theorems. -/
def mkInstOf (handles : List (Except String Payload)) : PagefindInstance :=
  ⟨fun _ => Except.ok (some handles), none⟩

/- ===================== search client: highlighting ===================== -/

/-- The regex metacharacters escaped by `highlightSearchTerms`:
the character class `[.*+?^$\x7b\x7d()|[\]\\]`. -/
def isRegexMeta (c : Char) : Bool :=
  c = '.' || c = '*' || c = '+' || c = '?' || c = '^' || c = '$' ||
    c = Char.ofNat 123 || c = Char.ofNat 125 ||
    c = '(' || c = ')' || c = '|' || c = '[' || c = ']' || c = '\\'

/-- Embeds `term.replace(/[.*+?^$\x7b\x7d()|[\]\\]/g, "\\$&")`: prefix every
metacharacter with a backslash. -/
def escapeChars : List Char → List Char
  | [] => []
  | c :: rest =>
    if isRegexMeta c then '\\' :: c :: escapeChars rest
    else c :: escapeChars rest

/-- The regex engine's reading of one escaped alternative: a `\` makes the
next character literal; an unescaped metacharacter would act as an operator
(`none`); anything else is literal.  `parseEscapedLiteral p = some l` says
the alternative `p` matches exactly the literal string `l`. -/
def parseEscapedLiteral : List Char → Option (List Char)
  | [] => some []
  | c :: rest =>
    if c = '\\' then
      match rest with
      | [] => none
      | d :: rest' => (parseEscapedLiteral rest').map (fun l => d :: l)
    else if isRegexMeta c then none
    else (parseEscapedLiteral rest).map (fun l => c :: l)

/-- The literal strings denoted by the alternatives of the constructed
pattern `(e1|e2|...|en)`; alternatives that are not escaped literals (which
`escapeChars` never produces) are dropped. -/
def regexLiteralAlternatives (escaped : List (List Char)) : List (List Char) :=
  escaped.filterMap parseEscapedLiteral

/-- Case-insensitive match of a (lower-cased) term at the start of a text,
modelling the regex `i` flag on the ASCII range. -/
def ciMatchAt : List Char → List Char → Bool
  | [], _ => true
  | _ :: _, [] => false
  | a :: as, b :: bs => a = Char.toLower b && ciMatchAt as bs

/-- The length of the alternation's match at the current position: regex
alternation is ordered, so the first alternative that matches wins. -/
def firstMatchLen (terms : List (List Char)) (text : List Char) : Option Nat :=
  terms.findSome? (fun t => if ciMatchAt t text then some t.length else none)

/-- Embeds `text.replace(pattern, "<mark>$1</mark>")` for the global,
case-insensitive alternation of literal terms: scan left to right; at a match
wrap the matched slice of the original text (`$1` keeps its case) and resume
after it; otherwise copy one character.  `fuel` bounds the recursion and is
instantiated with the text length (a match always consumes at least one
character: the terms are non-empty, so a zero-length match cannot occur and
is treated as no match). -/
def highlightScanAux (terms : List (List Char)) : Nat → List Char → List Char
  | 0, text => text
  | _ + 1, [] => []
  | fuel + 1, c :: rest =>
    match firstMatchLen terms (c :: rest) with
    | some (n + 1) =>
      "<mark>".data ++ (c :: rest).take (n + 1) ++
        ("</mark>".data ++ highlightScanAux terms fuel ((c :: rest).drop (n + 1)))
    | some 0 => c :: highlightScanAux terms fuel rest
    | none => c :: highlightScanAux terms fuel rest

/-- The whitespace-delimited, lower-cased, non-empty terms of a validated
query: `validQuery.toLowerCase().split(/\s+/).filter(Boolean)`. -/
def queryTerms (validQuery : String) : List (List Char) :=
  (splitChar jsWhitespace (jsToLower validQuery).data).filter (fun t => t ≠ [])

/-- The terms a raw query contributes: none when validation rejects it. -/
def termsOfQuery (query : String) : List (List Char) :=
  match validateQuery (JSValue.str query) with
  | none => []
  | some vq => queryTerms vq

/-- Embeds `highlightSearchTerms(text, query)`: reject invalid queries
(text returned unchanged), split into terms, escape each term, build the
global case-insensitive alternation `(e1|...|en)` — read back through
`parseEscapedLiteral`, its alternatives denote exactly the literal terms —
and replace every non-overlapping match with `<mark>$1</mark>`. -/
def highlightSearchTerms (text query : String) : String :=
  match validateQuery (JSValue.str query) with
  | none => text
  | some vq =>
    let terms := queryTerms vq
    if terms.length = 0 then text
    else
      let escapedTerms := terms.map escapeChars
      let alternatives := regexLiteralAlternatives escapedTerms
      ⟨highlightScanAux alternatives text.data.length text.data⟩

/-- Count the case-insensitive occurrences of a (lower-cased) pattern in a
text: the number of start positions where it matches. -/
def countCIOccur (pat : List Char) : List Char → Nat
  | [] => 0
  | c :: rest => (if ciMatchAt pat (c :: rest) then 1 else 0) + countCIOccur pat rest

/-- Exact match of a pattern at the start of a text. -/
def exactMatchAt : List Char → List Char → Bool
  | [], _ => true
  | _ :: _, [] => false
  | a :: as, b :: bs => a = b && exactMatchAt as bs

/-- Count the exact occurrences of a pattern in a text. -/
def countExactOccur (pat : List Char) : List Char → Nat
  | [] => 0
  | c :: rest => (if exactMatchAt pat (c :: rest) then 1 else 0) + countExactOccur pat rest

/- ===================== helper lemmas ===================== -/

theorem str_ext {a b : String} (h : a.data = b.data) : a = b := by
  cases a
  cases b
  exact congrArg String.mk h

theorem lexLe_trans : ∀ a b c : List Char, lexLe a b = true → lexLe b c = true →
    lexLe a c = true
  | [], _, _, _, _ => rfl
  | _ :: _, [], _, h, _ => by simp [lexLe] at h
  | _ :: _, _ :: _, [], _, h => by simp [lexLe] at h
  | a :: as, b :: bs, c :: cs, h1, h2 => by
    simp only [lexLe] at h1 h2 ⊢
    by_cases hab : a = b <;> by_cases hbc : b = c
    · subst hab
      subst hbc
      simp only [if_pos rfl] at h1 h2 ⊢
      exact lexLe_trans as bs cs h1 h2
    · subst hab
      simp only [if_neg hbc] at h2 ⊢
      exact h2
    · subst hbc
      simp only [if_neg hab] at h1 ⊢
      exact h1
    · simp only [if_neg hab] at h1
      simp only [if_neg hbc] at h2
      have hac : a < c := lt_trans (of_decide_eq_true h1) (of_decide_eq_true h2)
      have : a ≠ c := ne_of_lt hac
      simp [this, hac]

theorem lexLe_total : ∀ a b : List Char, lexLe a b = true ∨ lexLe b a = true
  | [], _ => Or.inl rfl
  | _ :: _, [] => Or.inr rfl
  | a :: as, b :: bs => by
    simp only [lexLe]
    by_cases hab : a = b
    · subst hab
      simp only [if_pos rfl]
      exact lexLe_total as bs
    · rcases lt_or_gt_of_ne hab with h | h
      · exact Or.inl (by simp [hab, h])
      · exact Or.inr (by simp [Ne.symm hab, h])

theorem lexLe_antisymm : ∀ a b : List Char, lexLe a b = true → lexLe b a = true → a = b
  | [], [], _, _ => rfl
  | [], _ :: _, _, h => by simp [lexLe] at h
  | _ :: _, [], h, _ => by simp [lexLe] at h
  | a :: as, b :: bs, h1, h2 => by
    simp only [lexLe] at h1 h2
    by_cases hab : a = b
    · subst hab
      simp only [if_pos rfl] at h1 h2
      rw [lexLe_antisymm as bs h1 h2]
    · exfalso
      simp only [if_neg hab, if_neg (Ne.symm hab)] at h1 h2
      exact absurd (of_decide_eq_true h1) (not_lt_of_gt (of_decide_eq_true h2))

theorem sortTags_eq_of_mem_iff {l₁ l₂ : List String} (h₁ : l₁.Nodup) (h₂ : l₂.Nodup)
    (h : ∀ t, t ∈ l₁ ↔ t ∈ l₂) : sortTags l₁ = sortTags l₂ := by
  haveI : IsTrans String strLe :=
    ⟨fun a b c hab hbc => lexLe_trans a.data b.data c.data hab hbc⟩
  haveI : IsTotal String strLe := ⟨fun a b => lexLe_total a.data b.data⟩
  haveI : IsAntisymm String strLe :=
    ⟨fun a b hab hba => str_ext (lexLe_antisymm a.data b.data hab hba)⟩
  have hp : l₁.Perm l₂ := (List.perm_ext_iff_of_nodup h₁ h₂).mpr h
  exact List.eq_of_perm_of_sorted
    ((List.perm_insertionSort strLe l₁).trans (hp.trans (List.perm_insertionSort strLe l₂).symm))
    (List.sorted_insertionSort strLe l₁) (List.sorted_insertionSort strLe l₂)

theorem toggleFilter_nodup (st : FilterState) (h : st.activeFilters.Nodup) (tagId : String) :
    (toggleFilter st tagId).activeFilters.Nodup := by
  unfold toggleFilter
  split
  · exact h
  split
  · exact h.erase _
  · next hmem =>
    rw [List.nodup_append]
    refine ⟨h, List.nodup_singleton _, ?_⟩
    intro a ha hamem
    rw [List.mem_singleton] at hamem
    subst hamem
    exact hmem ha

theorem applyOp_nodup (st : FilterState) (h : st.activeFilters.Nodup) (op : FilterOp) :
    (applyOp st op).activeFilters.Nodup := by
  cases op with
  | toggle tagId => exact toggleFilter_nodup st h tagId
  | clearAll => exact List.nodup_nil

theorem runOps_nodup (ops : List FilterOp) (st : FilterState) (h : st.activeFilters.Nodup) :
    (runOps ops st).activeFilters.Nodup := by
  induction ops generalizing st with
  | nil => exact h
  | cons op rest ih => exact ih (applyOp st op) (applyOp_nodup st h op)

/- ===================== claim theorems ===================== -/

/-- Claim C1: for every filter session and every item, after any toggle or
clear-all the item is visible if and only if the active-tag set is empty, or
the item's own tag set (its comma-joined tag attribute split on commas,
trimmed, empties dropped) has at least one element in common with the
active-tag set — OR semantics across selected tags, never AND. -/
theorem filterItems_or_semantics (st : FilterState) (op : FilterOp) (it : Item) :
    isVisible (applyOp st op) it = true ↔
      ((applyOp st op).activeFilters = [] ∨
        ∃ t, t ∈ itemTags it ∧ t ∈ (applyOp st op).activeFilters) := by
  generalize applyOp st op = st'
  unfold isVisible
  by_cases h : st'.activeFilters = []
  · simp [h]
  · have hlen : 0 < st'.activeFilters.length := by
      cases hl : st'.activeFilters with
      | nil => exact absurd hl h
      | cons x xs => simp
    simp only [hlen, decide_eq_true_eq, Bool.not_eq_true']
    simp [List.any_eq_true, h]

/-- Claim C2: the URL update writes the active-tag set as a sorted,
comma-joined string under the `tags` parameter when non-empty and removes the
parameter when empty, so any two toggle sequences reaching the same
active-tag set produce the byte-identical serialized `tags` value. -/
theorem updateURL_canonical (ops₁ ops₂ : List FilterOp)
    (h : ∀ t, t ∈ (runOps ops₁ emptyFilter).activeFilters ↔
      t ∈ (runOps ops₂ emptyFilter).activeFilters) :
    serializeTags (runOps ops₁ emptyFilter) = serializeTags (runOps ops₂ emptyFilter) ∧
      (∀ ops : List FilterOp,
        ((runOps ops emptyFilter).activeFilters = [] ↔
          serializeTags (runOps ops emptyFilter) = none)) ∧
      (∀ ops : List FilterOp, ∀ s : String, serializeTags (runOps ops emptyFilter) = some s →
        ∃ l : List String, List.Sorted strLe l ∧
          (∀ t, t ∈ l ↔ t ∈ (runOps ops emptyFilter).activeFilters) ∧
          s = joinWith ("," : String) l) := by
  refine ⟨?_, ?_, ?_⟩
  · have h₁ : (runOps ops₁ emptyFilter).activeFilters.Nodup :=
      runOps_nodup ops₁ emptyFilter List.nodup_nil
    have h₂ : (runOps ops₂ emptyFilter).activeFilters.Nodup :=
      runOps_nodup ops₂ emptyFilter List.nodup_nil
    unfold serializeTags
    by_cases he : (runOps ops₁ emptyFilter).activeFilters = []
    · have he₂ : (runOps ops₂ emptyFilter).activeFilters = [] := by
        rw [List.eq_nil_iff_forall_not_mem]
        intro t ht
        rw [List.eq_nil_iff_forall_not_mem] at he
        exact he t ((h t).mpr ht)
      simp [he, he₂]
    · have he₂ : (runOps ops₂ emptyFilter).activeFilters ≠ [] := by
        intro hc
        apply he
        rw [List.eq_nil_iff_forall_not_mem]
        intro t ht
        rw [List.eq_nil_iff_forall_not_mem] at hc
        exact hc t ((h t).mp ht)
      have hl₁ : 0 < (runOps ops₁ emptyFilter).activeFilters.length :=
        List.length_pos.mpr he
      have hl₂ : 0 < (runOps ops₂ emptyFilter).activeFilters.length :=
        List.length_pos.mpr he₂
      simp only [if_pos hl₁, if_pos hl₂]
      rw [sortTags_eq_of_mem_iff h₁ h₂ h]
  · intro ops
    unfold serializeTags
    constructor
    · intro he
      simp [he]
    · intro hn
      by_contra he
      have : 0 < (runOps ops emptyFilter).activeFilters.length := List.length_pos.mpr he
      simp [this] at hn
  · intro ops s hs
    have hnd : (runOps ops emptyFilter).activeFilters.Nodup :=
      runOps_nodup ops emptyFilter List.nodup_nil
    haveI : IsTrans String strLe :=
      ⟨fun a b c hab hbc => lexLe_trans a.data b.data c.data hab hbc⟩
    haveI : IsTotal String strLe := ⟨fun a b => lexLe_total a.data b.data⟩
    refine ⟨sortTags (runOps ops emptyFilter).activeFilters,
      List.sorted_insertionSort strLe _, ?_, ?_⟩
    · intro t
      exact (List.perm_insertionSort strLe _).mem_iff
    · unfold serializeTags at hs
      by_cases hl : 0 < (runOps ops emptyFilter).activeFilters.length
      · simp only [if_pos hl, Option.some.injEq] at hs
        exact hs.symm
      · simp [hl] at hs

/-- Witness for C2: toggling `python` then `design` produces the same
serialized `tags` value as toggling `design` then `python`, namely the
sorted join `design,python`. -/
theorem updateURL_canonical_witness :
    serializeTags (runOps [FilterOp.toggle ("python"), FilterOp.toggle ("design")] emptyFilter) =
        serializeTags
          (runOps [FilterOp.toggle ("design"), FilterOp.toggle ("python")] emptyFilter) ∧
      serializeTags (runOps [FilterOp.toggle ("python"), FilterOp.toggle ("design")] emptyFilter) =
        some ("design,python") := by
  refine ⟨(updateURL_canonical
    [FilterOp.toggle ("python"), FilterOp.toggle ("design")]
    [FilterOp.toggle ("design"), FilterOp.toggle ("python")] ?_).1, by decide⟩
  have e₁ : runOps [FilterOp.toggle ("python"), FilterOp.toggle ("design")] emptyFilter =
      ⟨["python", "design"]⟩ := by decide
  have e₂ : runOps [FilterOp.toggle ("design"), FilterOp.toggle ("python")] emptyFilter =
      ⟨["design", "python"]⟩ := by decide
  intro t
  rw [e₁, e₂]
  simp only [List.mem_cons, List.not_mem_nil, or_false]
  tauto

theorem loadLoop_allFail (loader : Nat → Except String PagefindInstance)
    (hfail : ∀ n, (loader n).isOk = false) (retries delay : Nat) :
    ∀ remaining attempt, 0 < remaining →
      (loadLoop loader retries delay attempt remaining).1.isOk = false ∧
        countAttempts (loadLoop loader retries delay attempt remaining).2 = remaining ∧
        countSleeps (loadLoop loader retries delay attempt remaining).2 = remaining - 1 ∧
        (∀ d, LoadEvent.sleep d ∈ (loadLoop loader retries delay attempt remaining).2 →
          d = delay) := by
  intro remaining
  induction remaining with
  | zero => intro attempt h; exact absurd h (by simp)
  | succ r ih =>
    intro attempt _
    cases hl : loader attempt with
    | ok inst =>
      exfalso
      have hof := hfail attempt
      rw [hl] at hof
      simp [Except.isOk, Except.toBool] at hof
    | error e =>
      by_cases hr : r = 0
      · subst hr
        simp [loadLoop, hl, countAttempts, countSleeps, List.countP_cons,
          Except.isOk, Except.toBool]
      · have hrpos : 0 < r := Nat.pos_of_ne_zero hr
        have hrec := ih (attempt + 1) hrpos
        simp only [loadLoop, hl, if_neg hr]
        refine ⟨hrec.1, ?_, ?_, ?_⟩
        · simp [countAttempts, List.countP_cons] at hrec ⊢
          omega
        · simp [countSleeps, List.countP_cons] at hrec ⊢
          omega
        · intro d hd
          simp only [List.mem_cons] at hd
          rcases hd with hd | hd | hd
          · exact LoadEvent.noConfusion hd
          · injection hd
          · exact hrec.2.2.2 d hd

theorem loadPagefind_none_eq (loader : Nat → Except String PagefindInstance)
    (retries delay : Nat) :
    loadPagefind loader retries delay none =
      (match (loadLoop loader retries delay 1 retries).1 with
        | Except.ok inst =>
          (⟨Except.ok inst, some inst, (loadLoop loader retries delay 1 retries).2⟩ : LoadOutcome)
        | Except.error e =>
          ⟨Except.error e, none, (loadLoop loader retries delay 1 retries).2⟩) := rfl

/-- Claim C3: with a loader that fails on every attempt and `retries = n ≥ 1`,
`loadPagefind` performs exactly n load attempts with the fixed configured
delay between consecutive attempts, then rejects; the cached index handle
remains unset after the rejection, so a later call starts from scratch.
Conversely a cached handle is returned with no load attempt, and a successful
load caches the handle. -/
theorem loadPagefind_retry_exhaustion (loader : Nat → Except String PagefindInstance)
    (retries delay : Nat) (h1 : 1 ≤ retries) (h2 : ∀ n, (loader n).isOk = false) :
    (loadPagefind loader retries delay none).result.isOk = false ∧
      (loadPagefind loader retries delay none).cache = none ∧
      countAttempts (loadPagefind loader retries delay none).events = retries ∧
      countSleeps (loadPagefind loader retries delay none).events = retries - 1 ∧
      (∀ d, LoadEvent.sleep d ∈ (loadPagefind loader retries delay none).events →
        d = delay) ∧
      (∀ inst, loadPagefind loader retries delay (some inst) =
        ⟨Except.ok inst, some inst, []⟩) ∧
      (∀ loader2 : Nat → Except String PagefindInstance, ∀ r2 d2 : Nat,
        ∀ inst : PagefindInstance,
        (loadPagefind loader2 r2 d2 none).result = Except.ok inst →
          (loadPagefind loader2 r2 d2 none).cache = some inst) := by
  have hloop := loadLoop_allFail loader h2 retries delay retries 1 h1
  have hne : (loadLoop loader retries delay 1 retries).1.isOk = false := hloop.1
  obtain ⟨e, he⟩ : ∃ e, (loadLoop loader retries delay 1 retries).1 = Except.error e := by
    cases hv : (loadLoop loader retries delay 1 retries).1 with
    | ok v =>
      rw [hv] at hne
      simp [Except.isOk, Except.toBool] at hne
    | error e => exact ⟨e, rfl⟩
  have hpf : loadPagefind loader retries delay none =
      ⟨Except.error e, none, (loadLoop loader retries delay 1 retries).2⟩ := by
    rw [loadPagefind_none_eq, he]
  refine ⟨?_, ?_, ?_, ?_, ?_, ?_, ?_⟩
  · rw [hpf]; rfl
  · rw [hpf]
  · rw [hpf]; exact hloop.2.1
  · rw [hpf]; exact hloop.2.2.1
  · rw [hpf]; exact hloop.2.2.2
  · intro inst; rfl
  · intro loader2 r2 d2 inst hres
    rw [loadPagefind_none_eq] at hres ⊢
    cases hv : (loadLoop loader2 r2 d2 1 r2).1 with
    | ok v =>
      simp only [hv] at hres ⊢
      have hres' : Except.ok v = (Except.ok inst : Except String PagefindInstance) := hres
      have hvi : v = inst := by injection hres'
      change some v = some inst
      rw [hvi]
    | error e2 =>
      simp only [hv] at hres
      exact Except.noConfusion (show (Except.error e2 : Except String PagefindInstance) =
        Except.ok inst from hres)

/-- Witness for C3: an always-failing loader with `retries = 3, delay = 0`
makes exactly 3 attempts, 2 sleeps, rejects, and leaves the cache unset. -/
theorem loadPagefind_retry_exhaustion_witness :
    (loadPagefind (fun _ => Except.error ("nope")) 3 0 none).result.isOk = false ∧
      (loadPagefind (fun _ => Except.error ("nope")) 3 0 none).cache = none ∧
      countAttempts (loadPagefind (fun _ => Except.error ("nope")) 3 0 none).events = 3 ∧
      countSleeps (loadPagefind (fun _ => Except.error ("nope")) 3 0 none).events = 2 := by
  have h := loadPagefind_retry_exhaustion (fun _ => Except.error ("nope")) 3 0
    (by decide) (fun n => rfl)
  exact ⟨h.1, h.2.1, h.2.2.1, h.2.2.2.1⟩

/-- Counterexample for C4: a completed `performSearch` invocation (an
in-cache index, one handle, result successfully returned) leaves the
process-wide statistics counters untouched: `searches` stays `0` instead of
being incremented to `1` as the claim requires. -/
theorem performSearch_stats_cex :
    (performSearch (JSValue.str ("hello")) ⟨none, none, none, none⟩
        (fun _ => Except.error ("unused"))
        ⟨some (mkInstOf [Except.ok ("r1")]), ⟨0, 0, 0⟩⟩).result = Except.ok [("r1")] ∧
      (performSearch (JSValue.str ("hello")) ⟨none, none, none, none⟩
        (fun _ => Except.error ("unused"))
        ⟨some (mkInstOf [Except.ok ("r1")]), ⟨0, 0, 0⟩⟩).stats.searches = 0 ∧
      ¬((performSearch (JSValue.str ("hello")) ⟨none, none, none, none⟩
        (fun _ => Except.error ("unused"))
        ⟨some (mkInstOf [Except.ok ("r1")]), ⟨0, 0, 0⟩⟩).stats.searches = 0 + 1) := by
  refine ⟨rfl, rfl, by decide⟩

/-- Claim C4 (amended): `performSearch` never modifies the process-wide
statistics counters — `SearchStats` is defined but not wired into
`performSearch`; the counters change only through explicit `recordSearch`
(which increments `searches` and adds the result count to `totalResults`)
and `recordFailure` (which increments `failedSearches`) calls. -/
theorem performSearch_stats_amended (query : JSValue) (options : SearchOptions)
    (loader : Nat → Except String PagefindInstance) (g : SearchGlobal)
    (st : SearchStatsState) (resultCount : Nat) :
    (performSearch query options loader g).stats = g.stats ∧
      recordSearch st resultCount =
        ⟨st.searches + 1, st.totalResults + resultCount, st.failedSearches⟩ ∧
      recordFailure st = ⟨st.searches, st.totalResults, st.failedSearches + 1⟩ := by
  refine ⟨?_, rfl, rfl⟩
  unfold performSearch
  cases validateQuery query with
  | none => rfl
  | some validQuery =>
    simp only
    cases (loadPagefind loader (retriesOrDefault options.retries)
      (retryDelayOrDefault options.retryDelay) g.pagefindInstance).result with
    | error e => rfl
    | ok pagefind =>
      simp only
      cases hresp : (match truthyNum options.debounce, pagefind.debouncedSearch with
        | true, some ds => ds validQuery (options.debounce.getD 0)
        | _, _ => pagefind.search validQuery) with
      | error e => rfl
      | ok o =>
        cases o with
        | none => rfl
        | some handles => rfl

/-- Claim C8: for every input that is not a string or whose trimmed form is
empty, `performSearch` returns the empty result sequence with no load
attempt, no index query, no materialization, and unchanged statistics
counters and cache. -/
theorem performSearch_invalid_query (query : JSValue) (options : SearchOptions)
    (loader : Nat → Except String PagefindInstance) (g : SearchGlobal)
    (h : query = JSValue.other ∨ ∃ s, query = JSValue.str s ∧ jsTrim s = ("")) :
    performSearch query options loader g =
      ⟨Except.ok [], g.pagefindInstance, g.stats, [], 0, 0⟩ := by
  have hv : validateQuery query = none := by
    rcases h with h | ⟨s, rfl, hs⟩
    · rw [h]; rfl
    · simp [validateQuery, hs]
  unfold performSearch
  rw [hv]

/-- Witness for C8: a whitespace-only query short-circuits to `[]` with no
load events, no query, no materialization and untouched counters. -/
theorem performSearch_invalid_query_witness :
    performSearch (JSValue.str ("   ")) ⟨none, none, none, none⟩
        (fun _ => Except.error ("u")) ⟨none, ⟨0, 0, 0⟩⟩ =
      ⟨Except.ok [], none, ⟨0, 0, 0⟩, [], 0, 0⟩ :=
  performSearch_invalid_query (JSValue.str ("   ")) ⟨none, none, none, none⟩
    (fun _ => Except.error ("u")) ⟨none, ⟨0, 0, 0⟩⟩
    (Or.inr ⟨("   "), rfl, by decide⟩)

/-- Counterexample for C6: with one result handle and a requested
`maxResults` of `0`, `performSearch` materializes 1 handle, not
`min(1, 0) = 0` — the JS guard `options.maxResults ? ... : ...` treats the
falsy `0` as "no cap" and skips truncation. -/
theorem performSearch_maxResults_zero_cex :
    (performSearch (JSValue.str ("q")) ⟨none, some 0, none, none⟩
        (fun _ => Except.error ("u"))
        ⟨some (mkInstOf [Except.ok ("a")]), ⟨0, 0, 0⟩⟩).materialized = 1 ∧
      min (1 : Nat) 0 = 0 := by
  refine ⟨rfl, by decide⟩

/-- Claim C6 (amended): for every positive requested `maxResults` m,
`performSearch` materializes exactly `min(k, m)` of the k returned handles
(truncation before materialization); the materializations have all-settled
semantics and the returned sequence is exactly the successfully materialized
payloads in their original order with failed entries dropped, so one failing
handle never fails the whole query.  When `maxResults` is absent — or `0`,
which the code's truthiness guard treats the same way — all k handles are
materialized. -/
theorem performSearch_materialization (handles : List (Except String Payload)) (m : Nat)
    (stats : SearchStatsState) (hm : 1 ≤ m) :
    (performSearch (JSValue.str ("q")) ⟨none, some m, none, none⟩
        (fun _ => Except.error ("unused")) ⟨some (mkInstOf handles), stats⟩).materialized =
        min m handles.length ∧
      (performSearch (JSValue.str ("q")) ⟨none, some m, none, none⟩
        (fun _ => Except.error ("unused")) ⟨some (mkInstOf handles), stats⟩).result =
        Except.ok ((handles.take m).filterMap (fun r =>
          match r with
          | Except.ok v => some v
          | Except.error _ => none)) ∧
      (performSearch (JSValue.str ("q")) ⟨none, some m, none, none⟩
        (fun _ => Except.error ("unused")) ⟨some (mkInstOf handles), stats⟩).result.isOk =
        true ∧
      (performSearch (JSValue.str ("q")) ⟨none, none, none, none⟩
        (fun _ => Except.error ("unused")) ⟨some (mkInstOf handles), stats⟩).materialized =
        handles.length ∧
      (performSearch (JSValue.str ("q")) ⟨none, some 0, none, none⟩
        (fun _ => Except.error ("unused")) ⟨some (mkInstOf handles), stats⟩).materialized =
        handles.length := by
  obtain ⟨k, rfl⟩ : ∃ k, m = k + 1 := ⟨m - 1, by omega⟩
  refine ⟨?_, ?_, ?_, ?_, ?_⟩
  · show ((handles.take (k + 1)).length = min (k + 1) handles.length)
    exact List.length_take (k + 1) handles
  · rfl
  · rfl
  · show handles.length = handles.length
    rfl
  · show handles.length = handles.length
    rfl

/-- Witness for C6: three handles with the second failing to materialize
yield exactly the two successful payloads, in order, with all three handles
materialized (`min(3, 3)`), and the query as a whole succeeds. -/
theorem performSearch_materialization_witness :
    (performSearch (JSValue.str ("q")) ⟨none, some 3, none, none⟩
        (fun _ => Except.error ("unused"))
        ⟨some (mkInstOf [Except.ok ("a"), Except.error ("boom"), Except.ok ("c")]),
          ⟨0, 0, 0⟩⟩).result = Except.ok [("a"), ("c")] ∧
      (performSearch (JSValue.str ("q")) ⟨none, some 3, none, none⟩
        (fun _ => Except.error ("unused"))
        ⟨some (mkInstOf [Except.ok ("a"), Except.error ("boom"), Except.ok ("c")]),
          ⟨0, 0, 0⟩⟩).materialized = 3 := by
  have h := performSearch_materialization
    [Except.ok ("a"), Except.error ("boom"), Except.ok ("c")] 3 ⟨0, 0, 0⟩ (by decide)
  exact ⟨h.2.1, h.1⟩

/-- Counterexample for C5: on a document missing the clear-all button anchor,
`FilterInstance.getElements` raises, but the exported `initializeFilters`
catches the construction error, logs it, and returns normally with no
session registered — it does not raise to its caller as the claim states. -/
theorem initFilters_no_raise_cex :
    (getElements ⟨["writing-filter-tags", "writing-results-count"], 0⟩
        (mkFilterConfig ("writing"))).isOk = false ∧
      initFilters ⟨["writing-filter-tags", "writing-results-count"], 0⟩ ("writing") [] =
        Except.ok [] := by
  refine ⟨by decide, rfl⟩

theorem getElements_isOk_iff (dom : DOM) (cfg : FilterConfig) :
    (getElements dom cfg).isOk = true ↔
      (cfg.filterTagsId ∈ dom.ids ∧ cfg.clearBtnId ∈ dom.ids ∧
        cfg.resultsCountId ∈ dom.ids) := by
  unfold getElements getElementById
  by_cases h1 : cfg.filterTagsId ∈ dom.ids <;>
    by_cases h2 : cfg.clearBtnId ∈ dom.ids <;>
      by_cases h3 : cfg.resultsCountId ∈ dom.ids <;>
        simp [h1, h2, h3, Except.isOk, Except.toBool]

theorem tryCreateInstance_isOk (dom : DOM) (type : String) (instances : List String) :
    (tryCreateInstance dom type instances).isOk = true := by
  unfold tryCreateInstance
  cases getElements dom (mkFilterConfig type) with
  | ok v => rfl
  | error e => rfl

/-- Claim C5 (amended): if any of the three required DOM anchors is missing,
the `FilterInstance` constructor (`getElements`) raises — but the exported
`initializeFilters` catches the error and returns normally, registering no
session, rather than raising to its caller; absence of candidate items alone
does not make `getElements` raise. -/
theorem initFilters_anchor_handling (dom : DOM) (type : String) (instances : List String) :
    (initFilters dom type instances).isOk = true ∧
      (¬anchorsPresent dom type →
        (getElements dom (mkFilterConfig type)).isOk = false ∧
          initFilters dom type [] = Except.ok []) ∧
      (anchorsPresent dom type → (getElements dom (mkFilterConfig type)).isOk = true) := by
  refine ⟨?_, ?_, ?_⟩
  · unfold initFilters
    by_cases hk : ("filter-" ++ type) ∈ instances
    · simp only [if_pos hk]
      by_cases hv : instanceIsValid dom type = true
      · simp only [if_pos hv]
        rfl
      · simp only [Bool.not_eq_true] at hv
        simp [hv, tryCreateInstance_isOk]
    · simp [hk, tryCreateInstance_isOk]
  · intro hmiss
    have hko : (getElements dom (mkFilterConfig type)).isOk = false := by
      rw [← Bool.not_eq_true, getElements_isOk_iff]
      exact fun hc => hmiss hc
    refine ⟨hko, ?_⟩
    obtain ⟨e, he⟩ : ∃ e, getElements dom (mkFilterConfig type) = Except.error e := by
      cases hv : getElements dom (mkFilterConfig type) with
      | ok v =>
        rw [hv] at hko
        simp [Except.isOk, Except.toBool] at hko
      | error e => exact ⟨e, rfl⟩
    have hnk : ¬(("filter-" ++ type) ∈ ([] : List String)) := by simp
    unfold initFilters
    simp only [if_neg hnk]
    unfold tryCreateInstance
    rw [he]
  · intro hpres
    exact (getElements_isOk_iff dom (mkFilterConfig type)).mpr hpres

/-- Witness for C5 (amended): a document with all three `writing` anchors but
zero items initializes without raising (and registers the session); a
document missing the clear button makes `getElements` raise while
`initializeFilters` still returns normally. -/
theorem initFilters_anchor_handling_witness :
    (initFilters ⟨["writing-filter-tags", "writing-clear-filters", "writing-results-count"], 0⟩
        ("writing") []).isOk = true ∧
      (getElements ⟨["writing-filter-tags", "writing-clear-filters", "writing-results-count"], 0⟩
        (mkFilterConfig ("writing"))).isOk = true ∧
      (getElements ⟨["writing-filter-tags"], 7⟩ (mkFilterConfig ("writing"))).isOk = false ∧
      initFilters ⟨["writing-filter-tags"], 7⟩ ("writing") [] = Except.ok [] := by
  have h1 := initFilters_anchor_handling
    ⟨["writing-filter-tags", "writing-clear-filters", "writing-results-count"], 0⟩ ("writing") []
  have h2 := initFilters_anchor_handling ⟨["writing-filter-tags"], 7⟩ ("writing") []
  have hm := h2.2.1 (by decide)
  exact ⟨h1.1, h1.2.2 (by decide), hm.1, hm.2⟩

theorem escape_roundtrip : ∀ l : List Char, parseEscapedLiteral (escapeChars l) = some l := by
  intro l
  induction l with
  | nil => rfl
  | cons c rest ih =>
    by_cases hm : isRegexMeta c = true
    · simp [escapeChars, hm, parseEscapedLiteral, ih]
    · have hnb : c ≠ '\\' := by
        intro hc
        subst hc
        simp [isRegexMeta] at hm
      have he : escapeChars (c :: rest) = c :: escapeChars rest := by
        simp [escapeChars, hm]
      rw [he, parseEscapedLiteral.eq_def]
      simp [hnb, hm, ih]

theorem regexLiteralAlternatives_escape (terms : List (List Char)) :
    regexLiteralAlternatives (terms.map escapeChars) = terms := by
  induction terms with
  | nil => rfl
  | cons t rest ih =>
    simp only [List.map_cons, regexLiteralAlternatives, List.filterMap_cons,
      escape_roundtrip t]
    rw [regexLiteralAlternatives] at ih
    rw [ih]

theorem countCIOccur_cons_zero {t : List Char} {c : Char} {rest : List Char}
    (h : countCIOccur t (c :: rest) = 0) :
    ciMatchAt t (c :: rest) = false ∧ countCIOccur t rest = 0 := by
  have he : countCIOccur t (c :: rest) =
      (if ciMatchAt t (c :: rest) then 1 else 0) + countCIOccur t rest := rfl
  rw [he] at h
  constructor
  · by_contra hb
    simp only [Bool.not_eq_false] at hb
    rw [if_pos hb] at h
    omega
  · omega

theorem highlightScanAux_id (terms : List (List Char)) :
    ∀ fuel text, (∀ t ∈ terms, countCIOccur t text = 0) →
      highlightScanAux terms fuel text = text := by
  intro fuel
  induction fuel with
  | zero => intro text _; rfl
  | succ f ih =>
    intro text h
    cases text with
    | nil => rfl
    | cons c rest =>
      have hnone : firstMatchLen terms (c :: rest) = none := by
        rw [firstMatchLen, List.findSome?_eq_none_iff]
        intro t ht
        have := (countCIOccur_cons_zero (h t ht)).1
        rw [this]
        rfl
      have hrest : ∀ t ∈ terms, countCIOccur t rest = 0 := fun t ht =>
        (countCIOccur_cons_zero (h t ht)).2
      calc highlightScanAux terms (f + 1) (c :: rest)
          = c :: highlightScanAux terms f rest := by
            simp only [highlightScanAux, hnone]
        _ = c :: rest := by rw [ih rest hrest]

/-- Counterexample for C7: with query `aa`, the text `aaa` contains two
(overlapping) case-insensitive occurrences of the term `aa`, but the
non-overlapping regex replace wraps only one of them — the output
`<mark>aa</mark>a` contains a single `<mark>` marker, so not every
occurrence is wrapped. -/
theorem highlightSearchTerms_overlap_cex :
    highlightSearchTerms ("aaa") ("aa") = ("<mark>aa</mark>a") ∧
      countCIOccur ['a', 'a'] ("aaa").data = 2 ∧
      countExactOccur ("<mark>").data (highlightSearchTerms ("aaa") ("aa")).data = 1 := by
  refine ⟨by decide, by decide, by decide⟩

/-- Claim C7 (amended): `highlightSearchTerms` splits the query into
whitespace-delimited terms, escapes regex metacharacters so they are always
matched as literals and never act as pattern operators
(`parseEscapedLiteral ∘ escapeChars` is the identity), wraps the occurrences
found by a single left-to-right non-overlapping scan in `<mark>` markers
(occurrences overlapping an already wrapped one are left unwrapped), returns
the text unchanged when the query is empty or whitespace-only or when no
term occurs in the text, and never throws (the embedding is total). -/
theorem highlightSearchTerms_amended :
    (∀ l : List Char, parseEscapedLiteral (escapeChars l) = some l) ∧
      (∀ text query : String, jsTrim query = ("") → highlightSearchTerms text query = text) ∧
      highlightSearchTerms ("price is $5.00") ("$5.00") = ("price is <mark>$5.00</mark>") ∧
      (∀ text query : String,
        (∀ t ∈ termsOfQuery query, countCIOccur t text.data = 0) →
          highlightSearchTerms text query = text) := by
  refine ⟨escape_roundtrip, ?_, by decide, ?_⟩
  · intro text query hq
    have hv : validateQuery (JSValue.str query) = none := by
      simp [validateQuery, hq]
    unfold highlightSearchTerms
    rw [hv]
  · intro text query h
    cases hv : validateQuery (JSValue.str query) with
    | none =>
      unfold highlightSearchTerms
      rw [hv]
    | some vq =>
      have hterms : termsOfQuery query = queryTerms vq := by
        unfold termsOfQuery
        rw [hv]
      rw [hterms] at h
      unfold highlightSearchTerms
      rw [hv]
      simp only
      by_cases hlen : (queryTerms vq).length = 0
      · rw [if_pos hlen]
      · rw [if_neg hlen]
        rw [regexLiteralAlternatives_escape]
        rw [highlightScanAux_id (queryTerms vq) text.data.length text.data h]

/-- Witness for C7 (amended): a whitespace-only query leaves the text
unchanged; escaping round-trips on a metacharacter-laden term; a query whose
term occurs nowhere in the text leaves it unchanged. -/
theorem highlightSearchTerms_amended_witness :
    highlightSearchTerms ("hello world") ("   ") = ("hello world") ∧
      parseEscapedLiteral (escapeChars ("$5.00").data) = some (("$5.00").data) ∧
      highlightSearchTerms ("no match here") ("zebra") = ("no match here") := by
  refine ⟨highlightSearchTerms_amended.2.1 ("hello world") ("   ") (by decide),
    highlightSearchTerms_amended.1 (("$5.00").data),
    highlightSearchTerms_amended.2.2.2 ("no match here") ("zebra") (by decide)⟩

/-- Counterexample for C9: with one of two posts visible under an active
filter, the code's message is `Showing 1 of 2 posts`, not the claimed
template `"{visible} of {total} {label}s"` (`1 of 2 posts`): the code
prefixes the filtered-state message with `Showing `. -/
theorem updateResultsCount_prefix_cex :
    updateResultsCount ("writing") 1 1 2 = ("Showing 1 of 2 posts") ∧
      ("Showing 1 of 2 posts" : String) ≠ ("1 of 2 posts") := by
  refine ⟨by decide, by decide⟩

/-- Claim C9 (amended): the results-count message is
`"Showing {visible} of {total} {label}"` when at least one filter is active
and `"{total} {label} total"` otherwise, where the label is derived from the
section type (`posts`/`projects` in the function-based script, the raw
section type in the class-based script); it is a pure function of
`(visibleCount, totalCount, hasActiveFilters, label)`, with the visible
count produced by the `filterItems` pass as the number of items passing the
visibility test. -/
theorem resultsCount_message_amended (type : String) (st : FilterState) (items : List Item)
    (activeCount count total : Nat) :
    (0 < st.activeFilters.length →
      filterItemsMessage type st items =
        ("Showing ") ++ toString (items.countP (fun it => isVisible st it)) ++ (" of ") ++
          toString items.length ++ (" ") ++ type) ∧
      (st.activeFilters.length = 0 →
        filterItemsMessage type st items =
          toString items.length ++ (" ") ++ type ++ (" total")) ∧
      (0 < activeCount →
        updateResultsCount type activeCount count total =
          ("Showing ") ++ toString count ++ (" of ") ++ toString total ++ (" ") ++
            typeLabelOf type) ∧
      (activeCount = 0 →
        updateResultsCount type activeCount count total =
          toString total ++ (" ") ++ typeLabelOf type ++ (" total")) := by
  refine ⟨?_, ?_, ?_, ?_⟩
  · intro h
    unfold filterItemsMessage resultsCountMessage
    rw [if_pos h]
  · intro h
    unfold filterItemsMessage resultsCountMessage
    rw [h]
    rfl
  · intro h
    unfold updateResultsCount
    rw [if_pos h]
  · intro h
    unfold updateResultsCount
    rw [h]
    rfl

/-- Witness for C9 (amended): a live session of type `writing` with one of
two items visible shows `Showing 1 of 2 writing`; with no active filter the
function-based script shows `4 projects total`. -/
theorem resultsCount_message_amended_witness :
    filterItemsMessage ("writing") ⟨[("ai")]⟩ [⟨some ("ai")⟩, ⟨some ("ml")⟩] =
        ("Showing 1 of 2 writing") ∧
      updateResultsCount ("work") 0 0 4 = ("4 projects total") := by
  refine ⟨?_, ?_⟩
  · have h := (resultsCount_message_amended ("writing") ⟨[("ai")]⟩
      [⟨some ("ai")⟩, ⟨some ("ml")⟩] 0 0 0).1 (by decide)
    rw [h]
    decide
  · have h := (resultsCount_message_amended ("work") ⟨[]⟩ [] 0 0 4).2.2.2 rfl
    rw [h]
    decide

/-- Claim C10: `getStats` never divides by zero — when the `searches` counter
is `0` it returns `avgResults = 0` and `successRate = 0`, and when
`searches > 0` it returns `avgResults = totalResults / searches` and
`successRate = ((searches − failedSearches) / searches) × 100`. -/
theorem getStats_no_div_by_zero (st : SearchStatsState) :
    (st.searches = 0 →
      (getStats st).avgResults = 0 ∧ (getStats st).successRate = 0) ∧
      (0 < st.searches →
        (getStats st).avgResults = (st.totalResults : ℚ) / (st.searches : ℚ) ∧
          (getStats st).successRate =
            (((st.searches : ℚ) - (st.failedSearches : ℚ)) / (st.searches : ℚ)) * 100) := by
  constructor
  · intro h
    simp [getStats, h]
  · intro h
    simp [getStats, h]

/-- Witness for C10: with no searches recorded the ratios are `0` (not NaN
or an error); with 4 searches, 8 total results and 1 failure they are `2`
and `75`. -/
theorem getStats_no_div_by_zero_witness :
    (getStats ⟨0, 5, 2⟩).avgResults = 0 ∧ (getStats ⟨0, 5, 2⟩).successRate = 0 ∧
      (getStats ⟨4, 8, 1⟩).avgResults = 2 ∧ (getStats ⟨4, 8, 1⟩).successRate = 75 := by
  have h0 := (getStats_no_div_by_zero ⟨0, 5, 2⟩).1 rfl
  have h4 := (getStats_no_div_by_zero ⟨4, 8, 1⟩).2 (by decide)
  refine ⟨h0.1, h0.2, ?_, ?_⟩
  · rw [h4.1]
    norm_num
  · rw [h4.2]
    norm_num
